import Mathlib

/-
Verification development for the export module of the AI-Resume-Builder
repository (src/components/ExportControls.tsx).

Part 1 models the PDF pagination geometry of `exportToPDF` (lines 80-133)
over exact rational arithmetic: the page-content conversion,
the page count, and the per-page slice computation of the loop.

Part 2 models the DOCX block assembly of `exportToDOCX` (lines 154-215),
including the bullet normalization applied to experience descriptions.

Part 3 models the control flow of `exportToPDF` (DOM-anchor checks,
capture, 2D-context acquisition, slicing, and the finally-based
style/dark-mode restoration) as a pure function of an environment record.
-/

namespace ResumeBuilder

/-! ## Part 1: PDF pagination geometry (exportToPDF) -/

/-- A slice of the master canvas, as computed in the pagination loop:
`sourceY` is the vertical offset into the raster, `sourceHeight` its height. -/
structure Slice where
  sourceY : ℚ
  sourceHeight : ℚ
deriving DecidableEq

/-- Line 91: `const pageContentHeightInCanvasPixels = (pageContentHeight * canvasWidth) / contentWidth`. -/
def pageContentHeightInCanvasPixels (pageContentHeight canvasWidth contentWidth : ℚ) : ℚ :=
  (pageContentHeight * canvasWidth) / contentWidth

/-- Line 94: `const numPages = Math.ceil(canvasHeight / pageContentHeightInCanvasPixels)`. -/
def numPages (canvasHeight pageContentPx : ℚ) : ℤ :=
  ⌈canvasHeight / pageContentPx⌉

/-- Lines 110-114 of the loop body for index `i`:
`sourceY = i * pageContentHeightInCanvasPixels`,
`sourceHeight = Math.min(pageContentHeightInCanvasPixels, canvasHeight - sourceY)`,
and `if (sourceHeight <= 0) continue` (no slice is emitted in that case). -/
def sliceAt (canvasHeight pageContentPx : ℚ) (i : ℕ) : Option Slice :=
  if min pageContentPx (canvasHeight - (i : ℚ) * pageContentPx) ≤ 0 then none
  else some ⟨(i : ℚ) * pageContentPx, min pageContentPx (canvasHeight - (i : ℚ) * pageContentPx)⟩

/-- Lines 105-133: the pagination loop `for (let i = 0; i < numPages; i++)`,
collecting the slice drawn for each index (skipped indices emit nothing). -/
def computeSlices (canvasHeight pageContentPx : ℚ) : List Slice :=
  (List.range (numPages canvasHeight pageContentPx).toNat).filterMap
    (sliceAt canvasHeight pageContentPx)

/-- Line 129: `const slicePdfHeight = (sourceHeight * contentWidth) / canvasWidth`. -/
def slicePdfHeight (sourceHeight contentWidth canvasWidth : ℚ) : ℚ :=
  (sourceHeight * contentWidth) / canvasWidth

/-- When every element of the list is mapped to `some`, `filterMap` is `map`. -/
lemma filterMap_eq_map_of_forall {α β : Type} (f : α → Option β) (g : α → β) :
    ∀ l : List α, (∀ a ∈ l, f a = some (g a)) → l.filterMap f = l.map g
  | [], _ => rfl
  | a :: l, H => by
    rw [List.filterMap_cons, H a (List.mem_cons_self a l), List.map_cons,
      filterMap_eq_map_of_forall f g l (fun b hb => H b (List.mem_cons_of_mem a hb))]

/-- With positive raster height and positive page height, the page count is positive. -/
lemma numPages_pos (canvasHeight pageContentPx : ℚ)
    (hh : 0 < canvasHeight) (hp : 0 < pageContentPx) :
    0 < numPages canvasHeight pageContentPx := by
  unfold numPages
  exact Int.ceil_pos.mpr (div_pos hh hp)

/-- The page count `n` satisfies `(n - 1) * p < h ≤ n * p`. -/
lemma numPages_bounds (canvasHeight pageContentPx : ℚ)
    (hh : 0 < canvasHeight) (hp : 0 < pageContentPx) :
    (((numPages canvasHeight pageContentPx).toNat : ℚ) - 1) * pageContentPx < canvasHeight ∧
    canvasHeight ≤ ((numPages canvasHeight pageContentPx).toNat : ℚ) * pageContentPx := by
  have hpos := numPages_pos canvasHeight pageContentPx hh hp
  have hcast : ((numPages canvasHeight pageContentPx).toNat : ℚ)
      = ((numPages canvasHeight pageContentPx : ℤ) : ℚ) := by
    exact_mod_cast congrArg (fun z : ℤ => (z : ℚ)) (Int.toNat_of_nonneg hpos.le)
  constructor
  · have h1 : ((⌈canvasHeight / pageContentPx⌉ : ℤ) : ℚ) < canvasHeight / pageContentPx + 1 :=
      Int.ceil_lt_add_one _
    have h2 : ((numPages canvasHeight pageContentPx : ℤ) : ℚ) - 1 < canvasHeight / pageContentPx := by
      unfold numPages; linarith
    rw [hcast]
    exact (lt_div_iff₀ hp).mp h2
  · have h1 : canvasHeight / pageContentPx ≤ ((⌈canvasHeight / pageContentPx⌉ : ℤ) : ℚ) :=
      Int.le_ceil _
    rw [hcast]
    exact (div_le_iff₀ hp).mp h1

/-- Every index below the page count yields a strictly positive source height. -/
lemma sourceHeight_pos (canvasHeight pageContentPx : ℚ)
    (hh : 0 < canvasHeight) (hp : 0 < pageContentPx) (i : ℕ)
    (hi : i < (numPages canvasHeight pageContentPx).toNat) :
    0 < min pageContentPx (canvasHeight - (i : ℚ) * pageContentPx) := by
  have hb := (numPages_bounds canvasHeight pageContentPx hh hp).1
  have hile : (i : ℚ) ≤ ((numPages canvasHeight pageContentPx).toNat : ℚ) - 1 := by
    have h1 : (i : ℕ) + 1 ≤ (numPages canvasHeight pageContentPx).toNat := hi
    have h2 : ((i : ℕ) : ℚ) + 1 ≤ ((numPages canvasHeight pageContentPx).toNat : ℚ) := by
      exact_mod_cast h1
    linarith
  have hlt : (i : ℚ) * pageContentPx < canvasHeight := by
    have := mul_le_mul_of_nonneg_right hile hp.le
    linarith
  exact lt_min hp (by linarith)

/-- Below the page count, the loop always emits the expected slice (no skip). -/
lemma sliceAt_eq_some (canvasHeight pageContentPx : ℚ)
    (hh : 0 < canvasHeight) (hp : 0 < pageContentPx) (i : ℕ)
    (hi : i < (numPages canvasHeight pageContentPx).toNat) :
    sliceAt canvasHeight pageContentPx i =
      some ⟨(i : ℚ) * pageContentPx,
            min pageContentPx (canvasHeight - (i : ℚ) * pageContentPx)⟩ := by
  have hpos := sourceHeight_pos canvasHeight pageContentPx hh hp i hi
  unfold sliceAt
  rw [if_neg (not_le.mpr hpos)]

/-- Under positive inputs the slice list is exactly one slice per page index. -/
lemma computeSlices_eq_map (canvasHeight pageContentPx : ℚ)
    (hh : 0 < canvasHeight) (hp : 0 < pageContentPx) :
    computeSlices canvasHeight pageContentPx =
      (List.range (numPages canvasHeight pageContentPx).toNat).map
        (fun (i : ℕ) => (⟨(i : ℚ) * pageContentPx,
                    min pageContentPx (canvasHeight - (i : ℚ) * pageContentPx)⟩ : Slice)) := by
  unfold computeSlices
  apply filterMap_eq_map_of_forall
  intro i hi
  exact sliceAt_eq_some canvasHeight pageContentPx hh hp i (List.mem_range.mp hi)

/-- Telescoping sum of the per-page `min` heights, for `m * p < h ≤ (m + 1) * p`. -/
lemma sum_min_range (p : ℚ) (hp : 0 < p) :
    ∀ (m : ℕ) (h : ℚ), (m : ℚ) * p < h → h ≤ ((m : ℚ) + 1) * p →
      ((List.range (m + 1)).map (fun (i : ℕ) => min p (h - (i : ℚ) * p))).sum = h := by
  intro m
  induction m with
  | zero =>
    intro h h1 h2
    have hr1 : List.range 1 = [0] := rfl
    rw [hr1]
    simp only [List.map_cons, List.map_nil, List.sum_cons, List.sum_nil,
      Nat.cast_zero, zero_mul, sub_zero, add_zero]
    push_cast at h2
    rw [min_eq_right (by linarith)]
  | succ k ih =>
    intro h h1 h2
    push_cast at h1 h2
    rw [List.range_succ_eq_map, List.map_cons, List.map_map, List.sum_cons]
    have hk : (0 : ℚ) ≤ (k : ℚ) * p := mul_nonneg (Nat.cast_nonneg k) hp.le
    have hps : ((List.range (k + 1)).map
          ((fun (i : ℕ) => min p (h - (i : ℚ) * p)) ∘ Nat.succ)).sum
        = ((List.range (k + 1)).map (fun (i : ℕ) => min p ((h - p) - (i : ℚ) * p))).sum := by
      congr 1
      apply List.map_congr_left
      intro i _
      simp only [Function.comp_apply]
      congr 1
      push_cast
      ring
    rw [hps, ih (h - p) (by linarith) (by linarith)]
    have hmin : min p (h - ((0 : ℕ) : ℚ) * p) = p := by
      rw [Nat.cast_zero, zero_mul, sub_zero]
      exact min_eq_left (by linarith)
    rw [hmin]
    ring

/-- C1: for every canvasHeight > 0 and pageContentPx > 0, the sum of the
sourceHeight values of all slices produced by the pagination loop equals
canvasHeight exactly — no gaps, no overlap, no pixel loss or duplication. -/
theorem slice_heights_sum (canvasHeight pageContentPx : ℚ)
    (hh : 0 < canvasHeight) (hp : 0 < pageContentPx) :
    ((computeSlices canvasHeight pageContentPx).map Slice.sourceHeight).sum = canvasHeight := by
  rw [computeSlices_eq_map canvasHeight pageContentPx hh hp, List.map_map]
  have hpos := numPages_pos canvasHeight pageContentPx hh hp
  have hnz : (numPages canvasHeight pageContentPx).toNat ≠ 0 := by omega
  obtain ⟨m, hm⟩ := Nat.exists_eq_succ_of_ne_zero hnz
  have hb := numPages_bounds canvasHeight pageContentPx hh hp
  rw [hm] at hb ⊢
  push_cast at hb
  have hcomp : (Slice.sourceHeight ∘ fun (i : ℕ) =>
      (⟨(i : ℚ) * pageContentPx,
        min pageContentPx (canvasHeight - (i : ℚ) * pageContentPx)⟩ : Slice))
      = fun (i : ℕ) => min pageContentPx (canvasHeight - (i : ℚ) * pageContentPx) := rfl
  rw [hcomp]
  refine sum_min_range pageContentPx hp m canvasHeight ?_ ?_
  · nlinarith [hb.1]
  · nlinarith [hb.2]

/-- Witness for C1 at canvasHeight = 250, pageContentPx = 100
(three slices of heights 100, 100, 50). -/
theorem slice_heights_sum_witness :
    (0 : ℚ) < 250 ∧ (0 : ℚ) < 100 ∧
    ((computeSlices 250 100).map Slice.sourceHeight).sum = 250 :=
  ⟨by norm_num, by norm_num, slice_heights_sum 250 100 (by norm_num) (by norm_num)⟩

/-- C2: the number of slices emitted equals ceil(canvasHeight / pageContentPx)
(under exact arithmetic no slice is ever omitted), and in particular when
canvasHeight = pageContentPx * k for an integer k, exactly k slices are
produced — no spurious trailing empty page. -/
theorem computeSlices_count (canvasHeight pageContentPx : ℚ)
    (hh : 0 < canvasHeight) (hp : 0 < pageContentPx) :
    (computeSlices canvasHeight pageContentPx).length
      = (numPages canvasHeight pageContentPx).toNat ∧
    ∀ k : ℤ, canvasHeight = pageContentPx * (k : ℚ) →
      ((computeSlices canvasHeight pageContentPx).length : ℤ) = k := by
  have hlen : (computeSlices canvasHeight pageContentPx).length
      = (numPages canvasHeight pageContentPx).toNat := by
    rw [computeSlices_eq_map canvasHeight pageContentPx hh hp, List.length_map,
      List.length_range]
  refine ⟨hlen, ?_⟩
  intro k hk
  have hk0 : 0 < k := by
    by_contra hneg
    push_neg at hneg
    have hkq : (k : ℚ) ≤ 0 := by exact_mod_cast hneg
    nlinarith
  have hnp : numPages canvasHeight pageContentPx = k := by
    unfold numPages
    rw [hk, mul_div_cancel_left₀ (k : ℚ) hp.ne']
    exact Int.ceil_intCast k
  rw [hlen, hnp, Int.toNat_of_nonneg hk0.le]

/-- Witness for C2 at canvasHeight = 300 = 100 * 3: exactly 3 slices. -/
theorem computeSlices_count_witness :
    (0 : ℚ) < 300 ∧ (0 : ℚ) < 100 ∧ (300 : ℚ) = 100 * ((3 : ℤ) : ℚ) ∧
    ((computeSlices 300 100).length : ℤ) = 3 :=
  ⟨by norm_num, by norm_num, by norm_num,
   (computeSlices_count 300 100 (by norm_num) (by norm_num)).2 3 (by norm_num)⟩

/-- C3: the pagination geometry is computed exactly as specified:
pageContentPx = pageContentHeight * canvasWidth / contentWidth; the page
count is the ceiling of canvasHeight / pageContentPx and is at least 1
whenever canvasHeight > 0; the i-th slice has sourceY = i * pageContentPx
and sourceHeight = min(pageContentPx, canvasHeight - sourceY); and each
slice's rendered height on the page is sourceHeight * contentWidth / canvasWidth. -/
theorem pagination_geometry
    (pageContentHeight canvasWidth contentWidth canvasHeight pageContentPx : ℚ)
    (hh : 0 < canvasHeight) (hpch : 0 < pageContentHeight)
    (hcw : 0 < canvasWidth) (hw : 0 < contentWidth)
    (hpcp : pageContentPx
      = pageContentHeightInCanvasPixels pageContentHeight canvasWidth contentWidth) :
    pageContentPx = pageContentHeight * canvasWidth / contentWidth ∧
    1 ≤ numPages canvasHeight pageContentPx ∧
    (∀ i : ℕ, i < (numPages canvasHeight pageContentPx).toNat →
      (computeSlices canvasHeight pageContentPx)[i]? =
        some ⟨(i : ℚ) * pageContentPx,
              min pageContentPx (canvasHeight - (i : ℚ) * pageContentPx)⟩) ∧
    ∀ sourceHeight : ℚ, slicePdfHeight sourceHeight contentWidth canvasWidth
      = sourceHeight * contentWidth / canvasWidth := by
  have hp : 0 < pageContentPx := by
    rw [hpcp]
    exact div_pos (mul_pos hpch hcw) hw
  refine ⟨by rw [hpcp]; rfl, ?_, ?_, fun s => rfl⟩
  · have := numPages_pos canvasHeight pageContentPx hh hp
    omega
  · intro i hi
    rw [computeSlices_eq_map canvasHeight pageContentPx hh hp, List.getElem?_map,
      List.getElem?_range hi]
    rfl

/-- Witness for C3: pageContentHeight = 1, canvasWidth = 1, contentWidth = 1,
canvasHeight = 3, so pageContentPx = 1 and the page at index 2 starts at 2. -/
theorem pagination_geometry_witness :
    (0 : ℚ) < 3 ∧ (0 : ℚ) < 1 ∧
    (computeSlices 3 1)[2]? =
      some ⟨((2 : ℕ) : ℚ) * 1, min 1 (3 - ((2 : ℕ) : ℚ) * 1)⟩ := by
  refine ⟨by norm_num, by norm_num, ?_⟩
  refine (pagination_geometry 1 1 1 3 1 (by norm_num) (by norm_num) (by norm_num)
    (by norm_num) (by norm_num [pageContentHeightInCanvasPixels])).2.2.1 2 ?_
  norm_num [numPages]

/-- C10: under exact rational arithmetic the skip branch is unreachable:
for every loop index below the page count, sourceY < canvasHeight, hence
sourceHeight > 0 and a slice is emitted, so every page added by the loop
receives an image. -/
theorem skip_branch_unreachable (canvasHeight pageContentPx : ℚ)
    (hh : 0 < canvasHeight) (hp : 0 < pageContentPx) :
    (∀ i : ℕ, i < (numPages canvasHeight pageContentPx).toNat →
      (i : ℚ) * pageContentPx < canvasHeight ∧
      0 < min pageContentPx (canvasHeight - (i : ℚ) * pageContentPx) ∧
      sliceAt canvasHeight pageContentPx i ≠ none) ∧
    (computeSlices canvasHeight pageContentPx).length
      = (numPages canvasHeight pageContentPx).toNat := by
  constructor
  · intro i hi
    have hpos := sourceHeight_pos canvasHeight pageContentPx hh hp i hi
    have h2 : 0 < canvasHeight - (i : ℚ) * pageContentPx :=
      lt_of_lt_of_le hpos (min_le_right _ _)
    refine ⟨by linarith, hpos, ?_⟩
    rw [sliceAt_eq_some canvasHeight pageContentPx hh hp i hi]
    exact Option.some_ne_none _
  · rw [computeSlices_eq_map canvasHeight pageContentPx hh hp, List.length_map,
      List.length_range]

/-- Witness for C10 at canvasHeight = 5, pageContentPx = 2 (3 pages, the last
slice has height 1 > 0, no skip occurs). -/
theorem skip_branch_unreachable_witness :
    (0 : ℚ) < 5 ∧ (0 : ℚ) < 2 ∧ sliceAt 5 2 2 ≠ none ∧
    (computeSlices 5 2).length = (numPages 5 2).toNat :=
  ⟨by norm_num, by norm_num,
   ((skip_branch_unreachable 5 2 (by norm_num) (by norm_num)).1 2
     (by rw [show numPages 5 2 = 3 from by
              unfold numPages
              rw [Int.ceil_eq_iff]
              constructor <;> norm_num]
         norm_num)).2.2,
   (skip_branch_unreachable 5 2 (by norm_num) (by norm_num)).2⟩

/-! ## Part 2: DOCX block assembly (exportToDOCX) -/

/-- Contact details destructured from `resumeData.personalInfo`. -/
structure PersonalInfo where
  name : String
  title : String
  email : String
  phone : String
  website : String
deriving DecidableEq

/-- One entry of `resumeData.experience`. -/
structure Experience where
  title : String
  company : String
  startDate : String
  endDate : String
  description : String
deriving DecidableEq

/-- One entry of `resumeData.education`. -/
structure Education where
  degree : String
  school : String
  location : String
  graduationDate : String
deriving DecidableEq

/-- One entry of `resumeData.skills`. -/
structure Skill where
  name : String
deriving DecidableEq

/-- One entry of `resumeData.projects`. -/
structure Project where
  name : String
  description : String
  link : String
deriving DecidableEq

/-- One entry of `resumeData.customSections`. -/
structure CustomSection where
  title : String
  content : String
deriving DecidableEq

/-- The résumé model destructured at line 155 of the source. -/
structure ResumeData where
  personalInfo : PersonalInfo
  summary : String
  experience : List Experience
  education : List Education
  skills : List Skill
  projects : List Project
  customSections : List CustomSection
deriving DecidableEq

/-- A styled text block handed to the docx encoder: a `Paragraph` with its
heading level (TITLE, HEADING_1, HEADING_2), its "strong" style, its bullet
marking, or a plain paragraph. A spacer is `para ""`. -/
inductive TextBlock where
  | title (text : String)
  | heading1 (text : String)
  | heading2 (text : String)
  | para (text : String)
  | strong (text : String)
  | bullet (text : String)
deriving DecidableEq

/-- JavaScript `s.split('\n')` on the character list: splits at every newline
and keeps empty pieces, so the empty string yields one empty piece. -/
def splitCharsOnNewline : List Char → List String
  | [] => [""]
  | c :: cs =>
    if c = '\n' then "" :: splitCharsOnNewline cs
    else
      match splitCharsOnNewline cs with
      | [] => [String.mk [c]]
      | r :: rs => String.mk (c :: r.data) :: rs

/-- JavaScript `description.split('\n')` (line 176 of the source). -/
def splitOnNewline (s : String) : List String :=
  splitCharsOnNewline s.data

/-- JavaScript `l.trim()` restricted to ASCII whitespace: drops leading and
trailing whitespace characters. -/
def jsTrim (s : String) : String :=
  String.mk (((s.data.dropWhile Char.isWhitespace).reverse.dropWhile Char.isWhitespace).reverse)

/-- JavaScript `d.replace(/^- /, '')` (line 176): removes exactly one literal
leading "- " when the string starts with it, and is the identity otherwise. -/
def stripLeadingDashSpace (s : String) : String :=
  match s.data with
  | '-' :: ' ' :: rest => String.mk rest
  | _ => s

/-- Line 176: `exp.description.split('\n').filter(l => l.trim() !== '').map(d =>
d.replace(/^- /, ''))` — the bullet texts produced for one description. -/
def bulletLines (description : String) : List String :=
  ((splitOnNewline description).filter (fun l => !(jsTrim l == ""))).map stripLeadingDashSpace

/-- Lines 173-178: the blocks emitted for one experience entry. -/
def experienceBlocks (exp : Experience) : List TextBlock :=
  [TextBlock.strong (exp.title ++ " - " ++ exp.company),
   TextBlock.para (exp.startDate ++ " - " ++ exp.endDate)]
  ++ (bulletLines exp.description).map TextBlock.bullet
  ++ [TextBlock.para ""]

/-- Lines 182-186: the blocks emitted for one education entry. -/
def educationBlocks (edu : Education) : List TextBlock :=
  [TextBlock.strong (edu.degree ++ ", " ++ edu.school),
   TextBlock.para (edu.location ++ " | " ++ edu.graduationDate),
   TextBlock.para ""]

/-- Lines 195-200: the blocks emitted for one project entry. -/
def projectBlocks (proj : Project) : List TextBlock :=
  [TextBlock.strong proj.name,
   TextBlock.para proj.description,
   TextBlock.para proj.link,
   TextBlock.para ""]

/-- Lines 203-207: the blocks emitted for one custom section. -/
def customSectionBlocks (sec : CustomSection) : List TextBlock :=
  [TextBlock.heading1 sec.title,
   TextBlock.para sec.content,
   TextBlock.para ""]

/-- Lines 157-210: the whole `children` sequence of the docx document, in
source order: identity, spacer, Summary, Experience, Education, Skills,
Projects, then Custom Sections. -/
def assemble (r : ResumeData) : List TextBlock :=
  [TextBlock.title r.personalInfo.name,
   TextBlock.heading2 r.personalInfo.title,
   TextBlock.para ("Email: " ++ r.personalInfo.email ++ " | Phone: " ++ r.personalInfo.phone
     ++ " | Website: " ++ r.personalInfo.website),
   TextBlock.para "",
   TextBlock.heading1 "Summary",
   TextBlock.para r.summary,
   TextBlock.para "",
   TextBlock.heading1 "Experience"]
  ++ r.experience.flatMap experienceBlocks
  ++ [TextBlock.heading1 "Education"]
  ++ r.education.flatMap educationBlocks
  ++ [TextBlock.heading1 "Skills",
      TextBlock.para (String.intercalate ", " (r.skills.map Skill.name)),
      TextBlock.para "",
      TextBlock.heading1 "Projects"]
  ++ r.projects.flatMap projectBlocks
  ++ r.customSections.flatMap customSectionBlocks

/-- Recognizes the bullet blocks of an assembled document. -/
def isBulletBlock : TextBlock → Bool
  | TextBlock.bullet _ => true
  | _ => false

/-- The length of a flatMap is the sum of the per-element lengths. -/
lemma length_flatMap_eq {α β : Type} (f : α → List β) :
    ∀ l : List α, (l.flatMap f).length = (l.map (fun a => (f a).length)).sum
  | [] => rfl
  | a :: l => by
    rw [List.flatMap_cons, List.length_append, List.map_cons, List.sum_cons,
      length_flatMap_eq f l]

/-- Mapping a constant and summing multiplies by the length. -/
lemma sum_map_const_nat {α : Type} (c : ℕ) :
    ∀ l : List α, (l.map (fun _ => c)).sum = c * l.length
  | [] => by simp
  | a :: l => by
    rw [List.map_cons, List.sum_cons, sum_map_const_nat c l, List.length_cons]
    ring

/-- One experience entry emits its header line, its date line, one block per
bullet, and a spacer. -/
lemma experienceBlocks_length (e : Experience) :
    (experienceBlocks e).length = 3 + (bulletLines e.description).length := by
  simp [experienceBlocks]
  omega

/-- A concrete résumé with two experience entries whose descriptions have
three and one non-blank lines. -/
def twoEntryResume : ResumeData :=
  { personalInfo := { name := "Ada", title := "Engineer", email := "ada@example.com",
                      phone := "555", website := "ada.example" },
    summary := "Builds reliable software.",
    experience :=
      [{ title := "Lead", company := "Acme", startDate := "2019", endDate := "2021",
         description := "- Led a team\nShipped v2\n\n- Cut costs" },
       { title := "Dev", company := "Initech", startDate := "2017", endDate := "2019",
         description := "- Wrote reports" }],
    education := [], skills := [], projects := [], customSections := [] }

/-- A concrete résumé whose five section arrays are all empty. -/
def emptyArraysResume : ResumeData :=
  { personalInfo := { name := "Ada", title := "Engineer", email := "ada@example.com",
                      phone := "555", website := "ada.example" },
    summary := "Builds reliable software.",
    experience := [], education := [], skills := [], projects := [], customSections := [] }

/-- A block that is one of the identity blocks, a spacer, or one of the
Summary blocks of the given résumé — the only kinds of blocks the spec
allows in the output for a résumé with all-empty section arrays. -/
def claimedEmptyBlock (r : ResumeData) (b : TextBlock) : Bool :=
  b == TextBlock.title r.personalInfo.name ||
  b == TextBlock.heading2 r.personalInfo.title ||
  b == TextBlock.para ("Email: " ++ r.personalInfo.email ++ " | Phone: " ++ r.personalInfo.phone
    ++ " | Website: " ++ r.personalInfo.website) ||
  b == TextBlock.para "" ||
  b == TextBlock.heading1 "Summary" ||
  b == TextBlock.para r.summary

/-- C4: the bullet list of an experience description is obtained by splitting
on newline, dropping lines blank after trimming, and stripping exactly one
literal leading "- "; "- Led a team" yields "Led a team", "-- note" is kept
unmodified, and internal dashes are never affected. -/
theorem bullet_normalization :
    (∀ d : String, bulletLines d =
      ((splitOnNewline d).filter (fun l => !(jsTrim l == ""))).map stripLeadingDashSpace) ∧
    (∀ cs : List Char, stripLeadingDashSpace (String.mk ('-' :: ' ' :: cs)) = String.mk cs) ∧
    bulletLines "- Led a team" = ["Led a team"] ∧
    bulletLines "-- note" = ["-- note"] ∧
    bulletLines " \n- Led a team\n\n-- note\nx - y\n" = ["Led a team", "-- note", "x - y"] :=
  ⟨fun d => rfl, fun cs => rfl, by decide, by decide, by decide⟩

/-- C5: the assembled block count is a deterministic function of the input
array lengths and the per-entry non-blank description line counts: 13 fixed
blocks, 3 + bullets per experience entry, 3 per education entry, 4 per
project, 3 per custom section; in particular two experience entries with
three and one non-blank lines yield exactly four bullet blocks. -/
theorem assemble_block_count (r : ResumeData) :
    (assemble r).length =
      13 + (r.experience.map (fun e => 3 + (bulletLines e.description).length)).sum
        + 3 * r.education.length + 4 * r.projects.length + 3 * r.customSections.length ∧
    ((assemble twoEntryResume).filter isBulletBlock).length = 4 := by
  constructor
  · simp only [assemble, List.length_append, length_flatMap_eq, experienceBlocks_length]
    have hedu : (r.education.map (fun a => (educationBlocks a).length)).sum
        = 3 * r.education.length := by
      have h3 : r.education.map (fun a => (educationBlocks a).length)
          = r.education.map (fun _ => 3) := by
        apply List.map_congr_left
        intro a _
        rfl
      rw [h3, sum_map_const_nat]
    have hproj : (r.projects.map (fun a => (projectBlocks a).length)).sum
        = 4 * r.projects.length := by
      have h4 : r.projects.map (fun a => (projectBlocks a).length)
          = r.projects.map (fun _ => 4) := by
        apply List.map_congr_left
        intro a _
        rfl
      rw [h4, sum_map_const_nat]
    have hcs : (r.customSections.map (fun a => (customSectionBlocks a).length)).sum
        = 3 * r.customSections.length := by
      have h5 : r.customSections.map (fun a => (customSectionBlocks a).length)
          = r.customSections.map (fun _ => 3) := by
        apply List.map_congr_left
        intro a _
        rfl
      rw [h5, sum_map_const_nat]
    rw [hedu, hproj, hcs]
    simp only [List.length_cons, List.length_nil]
    omega
  · decide

/-- C6 counterexample: for a résumé with all five section arrays empty, the
assembled sequence is NOT made of identity, spacer, and Summary blocks only —
the fixed section headings (for instance the Experience heading) are still
emitted. -/
theorem assemble_empty_not_only_summary :
    ¬ ∀ b ∈ assemble emptyArraysResume, claimedEmptyBlock emptyArraysResume b = true := by
  decide

/-- C6 amended: for a résumé whose experience, education, skills, projects
and customSections arrays are all empty, the assembled sequence consists of
the identity blocks, spacers, and the Summary blocks, plus the four fixed
section headings (Experience, Education, Skills, Projects) and the empty
Skills line. -/
theorem assemble_empty_arrays (r : ResumeData)
    (h1 : r.experience = []) (h2 : r.education = []) (h3 : r.skills = [])
    (h4 : r.projects = []) (h5 : r.customSections = []) :
    assemble r =
      [TextBlock.title r.personalInfo.name,
       TextBlock.heading2 r.personalInfo.title,
       TextBlock.para ("Email: " ++ r.personalInfo.email ++ " | Phone: " ++ r.personalInfo.phone
         ++ " | Website: " ++ r.personalInfo.website),
       TextBlock.para "",
       TextBlock.heading1 "Summary",
       TextBlock.para r.summary,
       TextBlock.para "",
       TextBlock.heading1 "Experience",
       TextBlock.heading1 "Education",
       TextBlock.heading1 "Skills",
       TextBlock.para "",
       TextBlock.para "",
       TextBlock.heading1 "Projects"] := by
  obtain ⟨pi, sm, exp, edu, sk, pr, cs⟩ := r
  dsimp only at h1 h2 h3 h4 h5
  subst h1 h2 h3 h4 h5
  rfl

/-- Witness for the amended C6 at a concrete all-empty-arrays résumé. -/
theorem assemble_empty_arrays_witness :
    assemble emptyArraysResume =
      [TextBlock.title "Ada",
       TextBlock.heading2 "Engineer",
       TextBlock.para "Email: ada@example.com | Phone: 555 | Website: ada.example",
       TextBlock.para "",
       TextBlock.heading1 "Summary",
       TextBlock.para "Builds reliable software.",
       TextBlock.para "",
       TextBlock.heading1 "Experience",
       TextBlock.heading1 "Education",
       TextBlock.heading1 "Skills",
       TextBlock.para "",
       TextBlock.para "",
       TextBlock.heading1 "Projects"] :=
  assemble_empty_arrays emptyArraysResume rfl rfl rfl rfl rfl

/-! ## Part 3: exportToPDF control flow (anchors, capture, context, cleanup) -/

/-- The environment `exportToPDF` runs against: whether each DOM anchor is
found, whether dark mode is active, and whether each fallible step
(html2canvas capture, 2D-context acquisition, slice drawing/encoding)
succeeds. -/
structure PdfEnv where
  contentFound : Bool
  previewFound : Bool
  wrapperFound : Bool
  darkMode : Bool
  captureOk : Bool
  ctxOk : Bool
  renderOk : Bool
deriving DecidableEq

/-- The externally observable outcome of one `exportToPDF` call:
console.error count, alert count, whether capture was attempted, whether a
PDF was saved, whether the temporary export styles were applied, whether the
preview/wrapper/content cssText values were restored, and the final state of
the dark-mode class. -/
structure PdfOutcome where
  errorsLogged : Nat
  alertsShown : Nat
  captureAttempted : Bool
  pdfSaved : Bool
  stylesModified : Bool
  stylesRestored : Bool
  darkModeAtEnd : Bool
deriving DecidableEq

/-- Lines 22-152 of the source, branch by branch:
missing `resume-content` logs and alerts and returns (lines 25-29);
missing `resume-preview` or missing parent wrapper re-adds the dark class
and returns silently (lines 41-44); a rejected capture promise hits the
`.catch` (log + alert, lines 137-140); a null 2D context logs and returns
from the `.then` without alerting (lines 99-102); a throw while slicing or
encoding also hits the `.catch`; on all three of those paths and on success
the `.finally` (lines 141-150) restores the three cssText values and re-adds
the dark class when it was active. -/
def exportToPDFModel (env : PdfEnv) : PdfOutcome :=
  if !env.contentFound then
    { errorsLogged := 1, alertsShown := 1, captureAttempted := false,
      pdfSaved := false, stylesModified := false, stylesRestored := false,
      darkModeAtEnd := env.darkMode }
  else if !env.previewFound || !env.wrapperFound then
    { errorsLogged := 0, alertsShown := 0, captureAttempted := false,
      pdfSaved := false, stylesModified := false, stylesRestored := false,
      darkModeAtEnd := env.darkMode }
  else if !env.captureOk then
    { errorsLogged := 1, alertsShown := 1, captureAttempted := true,
      pdfSaved := false, stylesModified := true, stylesRestored := true,
      darkModeAtEnd := env.darkMode }
  else if !env.ctxOk then
    { errorsLogged := 1, alertsShown := 0, captureAttempted := true,
      pdfSaved := false, stylesModified := true, stylesRestored := true,
      darkModeAtEnd := env.darkMode }
  else if !env.renderOk then
    { errorsLogged := 1, alertsShown := 1, captureAttempted := true,
      pdfSaved := false, stylesModified := true, stylesRestored := true,
      darkModeAtEnd := env.darkMode }
  else
    { errorsLogged := 0, alertsShown := 0, captureAttempted := true,
      pdfSaved := true, stylesModified := true, stylesRestored := true,
      darkModeAtEnd := env.darkMode }

/-- C7 counterexample: when the 2D context cannot be acquired (all anchors
present, capture succeeded), the export does abort without a file, but NO
user-facing error is surfaced — the code only logs and returns, so the
claimed alert does not happen. -/
theorem ctx_failure_no_alert :
    ¬ ((exportToPDFModel ⟨true, true, true, false, true, false, true⟩).pdfSaved = false ∧
       1 ≤ (exportToPDFModel ⟨true, true, true, false, true, false, true⟩).alertsShown) := by
  decide

/-- C7 amended: if the 2D drawing surface cannot be acquired during PDF
export, the whole export aborts and no partial PDF is produced and the
failure is logged to the console, but no user-facing alert is shown; the
style cleanup still runs. -/
theorem ctx_failure_behavior (env : PdfEnv)
    (hc : env.contentFound = true) (hpv : env.previewFound = true)
    (hw : env.wrapperFound = true) (hcap : env.captureOk = true)
    (hctx : env.ctxOk = false) :
    exportToPDFModel env =
      { errorsLogged := 1, alertsShown := 0, captureAttempted := true,
        pdfSaved := false, stylesModified := true, stylesRestored := true,
        darkModeAtEnd := env.darkMode } := by
  revert hc hpv hw hcap hctx
  obtain ⟨c, p, w, d, cap, ctx, rk⟩ := env
  cases c <;> cases p <;> cases w <;> cases d <;> cases cap <;> cases ctx <;> cases rk <;>
    decide

/-- Witness for the amended C7 at a concrete environment. -/
theorem ctx_failure_behavior_witness :
    exportToPDFModel ⟨true, true, true, true, true, false, true⟩ =
      { errorsLogged := 1, alertsShown := 0, captureAttempted := true,
        pdfSaved := false, stylesModified := true, stylesRestored := true,
        darkModeAtEnd := true } :=
  ctx_failure_behavior ⟨true, true, true, true, true, false, true⟩ rfl rfl rfl rfl rfl

/-- C8 counterexample: when the preview container is missing (content found),
the export aborts before any capture attempt but neither logs an error nor
shows an alert — the claimed log + alert do not happen. -/
theorem missing_preview_silent :
    ¬ (1 ≤ (exportToPDFModel ⟨true, false, true, false, true, true, true⟩).errorsLogged ∧
       1 ≤ (exportToPDFModel ⟨true, false, true, false, true, true, true⟩).alertsShown) := by
  decide

/-- C8 amended: a missing resume-content element logs an error, shows a user
alert, and aborts before any capture attempt; a missing preview container or
aspect wrapper also aborts before any capture attempt, but silently — no log
and no alert, only the dark-mode flag is restored. -/
theorem missing_anchor_behavior (env : PdfEnv) :
    (env.contentFound = false →
      exportToPDFModel env =
        { errorsLogged := 1, alertsShown := 1, captureAttempted := false,
          pdfSaved := false, stylesModified := false, stylesRestored := false,
          darkModeAtEnd := env.darkMode }) ∧
    (env.contentFound = true → (env.previewFound = false ∨ env.wrapperFound = false) →
      exportToPDFModel env =
        { errorsLogged := 0, alertsShown := 0, captureAttempted := false,
          pdfSaved := false, stylesModified := false, stylesRestored := false,
          darkModeAtEnd := env.darkMode }) := by
  obtain ⟨c, p, w, d, cap, ctx, rk⟩ := env
  cases c <;> cases p <;> cases w <;> cases d <;> cases cap <;> cases ctx <;> cases rk <;>
    decide

/-- Witness for the amended C8: missing content alerts, missing preview is silent. -/
theorem missing_anchor_behavior_witness :
    exportToPDFModel ⟨false, true, true, true, true, true, true⟩ =
      { errorsLogged := 1, alertsShown := 1, captureAttempted := false,
        pdfSaved := false, stylesModified := false, stylesRestored := false,
        darkModeAtEnd := true } ∧
    exportToPDFModel ⟨true, false, true, true, true, true, true⟩ =
      { errorsLogged := 0, alertsShown := 0, captureAttempted := false,
        pdfSaved := false, stylesModified := false, stylesRestored := false,
        darkModeAtEnd := true } :=
  ⟨(missing_anchor_behavior ⟨false, true, true, true, true, true, true⟩).1 rfl,
   (missing_anchor_behavior ⟨true, false, true, true, true, true, true⟩).2 rfl (Or.inl rfl)⟩

/-- C9: on every exit path after the temporary export styles are applied —
capture success, capture failure, 2D-context failure, and slicing/encoding
failure alike — the modified styles are restored and the dark-mode flag ends
where it started. -/
theorem styles_always_restored (env : PdfEnv)
    (h : (exportToPDFModel env).stylesModified = true) :
    (exportToPDFModel env).stylesRestored = true ∧
    (exportToPDFModel env).darkModeAtEnd = env.darkMode := by
  revert h
  obtain ⟨c, p, w, d, cap, ctx, rk⟩ := env
  cases c <;> cases p <;> cases w <;> cases d <;> cases cap <;> cases ctx <;> cases rk <;>
    decide

/-- Witness for C9 on the slicing-failure path with dark mode active. -/
theorem styles_always_restored_witness :
    (exportToPDFModel ⟨true, true, true, true, true, true, false⟩).stylesModified = true ∧
    ((exportToPDFModel ⟨true, true, true, true, true, true, false⟩).stylesRestored = true ∧
     (exportToPDFModel ⟨true, true, true, true, true, true, false⟩).darkModeAtEnd = true) :=
  ⟨rfl, styles_always_restored ⟨true, true, true, true, true, true, false⟩ rfl⟩

end ResumeBuilder
